import Mathlib

/-!
Shallow embedding of the virtual filesystem of `src/lib/filesystem/filesystem.test.ts`
(the `VirtualFileSystem` class and its helpers, lines 285-502 of that file).

JavaScript records (`Record<string, any>`) are modelled as association lists of
the object's own properties in insertion order.  Two further ECMAScript
behaviours of plain objects are modelled explicitly:
property access `items[name]` falls through to `Object.prototype` when no own
property exists, so for member names such as `toString` it yields a truthy
inherited function rather than `undefined` (`itemsGet` with its `protoFn`
case, and the resulting `TypeError` when `delete` then reads `.metaData` on
it); and `Object.values` enumerates own canonical array-index keys first in
ascending numeric order, then the remaining string keys in insertion order
(`objectValues`).  Property insertion appends a new own key, property update
keeps the key position, and `delete` removes the own key.  Metadata values are
modelled by the small tagged union `MetaValue` (booleans, numbers, strings)
together with JS truthiness.  Thrown errors are modelled with `Except` over
the inductive `VfsError`, whose `message` function reproduces the exact
message strings of the source (the `TypeError` message as worded by V8).
`produce` from immer never mutates its base and either returns a fresh value
or propagates the exception thrown by the recipe; the pure `Except`
translation below models exactly that.
-/

/-- A metadata value as stored in a `Record<string, any>`: the kinds of values
the repository actually stores (booleans such as `isSystem`, numbers, strings). -/
inductive MetaValue where
  | bool (b : Bool)
  | num (n : Int)
  | str (s : String)
deriving DecidableEq, Repr

/-- JavaScript truthiness of a metadata value: `false`, `0` and the empty
string are falsy, everything else is truthy. -/
def MetaValue.truthy : MetaValue → Bool
  | .bool b => b
  | .num n => n != 0
  | .str s => s != ""

/-- A `metaData` record: string-keyed association list in insertion order. -/
abbrev MetaData := List (String × MetaValue)

/-- JS property access `md[key]` on a metadata record: first matching key. -/
def metaLookup (key : String) : MetaData → Option MetaValue
  | [] => none
  | (k, v) :: tl => if k = key then some v else metaLookup key tl

/-- Truthiness of `md.isSystem`-style access: a missing property is
`undefined`, hence falsy. -/
def metaTruthy (key : String) (md : MetaData) : Bool :=
  match metaLookup key md with
  | some v => v.truthy
  | none => false

/-- `VirtualFile` of the source: `{type:"file", name, content, metaData}`. -/
structure VirtualFile where
  name : String
  content : String
  metaData : MetaData
deriving DecidableEq, Repr

mutual
/-- `VirtualItem` of the source: the tagged union of files and folders. -/
inductive VirtualItem where
  | file (file : VirtualFile) : VirtualItem
  | folder (folder : VirtualFolder) : VirtualItem

/-- `VirtualFolder` of the source: `{type:"folder", name, items, metaData}`,
with the `items` record kept as an insertion-ordered association list. -/
inductive VirtualFolder where
  | mk (name : String) (items : List (String × VirtualItem)) (metaData : MetaData) : VirtualFolder
end

/-- The `name` field of a folder. -/
def VirtualFolder.name : VirtualFolder → String
  | .mk n _ _ => n

/-- The `items` record of a folder. -/
def VirtualFolder.items : VirtualFolder → List (String × VirtualItem)
  | .mk _ i _ => i

/-- The `metaData` field of a folder. -/
def VirtualFolder.metaData : VirtualFolder → MetaData
  | .mk _ _ m => m

/-- The `name` field of an item. -/
def VirtualItem.name : VirtualItem → String
  | .file f => f.name
  | .folder f => f.name

/-- The `metaData` field of an item. -/
def VirtualItem.metaData : VirtualItem → MetaData
  | .file f => f.metaData
  | .folder f => f.metaData

/-- `createVirtualFile(name, content, metaData = {})` of the source. -/
def createVirtualFile (name : String) (content : String)
    (metaData : MetaData := []) : VirtualFile :=
  ⟨name, content, metaData⟩

/-- `createVirtualFolder(name, metaData = {})` of the source: a folder with an
empty items record. -/
def createVirtualFolder (name : String) (metaData : MetaData := []) : VirtualFolder :=
  .mk name [] metaData

/-- The errors thrown by the source, one constructor per `throw new Error(...)`
site, carrying the data interpolated into the message. -/
inductive VfsError where
  | alreadyExists (name : String) (path : String)
  | fileNotFound (path : String)
  | notFound (path : String)
  | systemProtected (path : String)
  | folderNotFound (path : String)
  | invalidPath (path : String)
  | typeError (prop : String)
deriving DecidableEq, Repr

/-- The exact message string of each error, as in the source template literals. -/
def VfsError.message : VfsError → String
  | .alreadyExists name path =>
      "A file or folder with the name \"" ++ name ++ "\" already exists in the path \"" ++ path ++ "\"."
  | .fileNotFound path => "VirtualFile \"" ++ path ++ "\" does not exist."
  | .notFound path => "\"" ++ path ++ "\" does not exist."
  | .systemProtected path => "\"" ++ path ++ "\" is a system file and cannot be deleted."
  | .folderNotFound path => "Folder \"" ++ path ++ "\" does not exist."
  | .invalidPath path => "Invalid path \"" ++ path ++ "\"."
  | .typeError prop => "Cannot read properties of undefined (reading \x27" ++ prop ++ "\x27)"

/-- Splitting a character list at every `/`, the behaviour of JS
`"...".split("/")` for a single-character separator (empty pieces kept,
the empty string splitting to one empty piece). -/
def splitSlashChars : List Char → List (List Char)
  | [] => [[]]
  | c :: cs =>
    if c = '/' then [] :: splitSlashChars cs
    else
      match splitSlashChars cs with
      | hd :: tl => (c :: hd) :: tl
      | [] => [[c]]

/-- `path.split("/").filter(Boolean)` of the source: split on `/` and drop
empty segments (`Boolean(s)` is false exactly for the empty string). -/
def normalizePath (path : String) : List String :=
  ((splitSlashChars path.toList).map (fun l => String.mk l)).filter (fun s => s ≠ "")

/-- `parts.join("/")` of the source. -/
def joinSlash : List String → String
  | [] => ""
  | [s] => s
  | s :: rest => s ++ "/" ++ joinSlash rest

/-- Own-property lookup on a folder's items record: first matching key (keys
are unique in a JS object, so this is exact). -/
def itemsLookup (key : String) : List (String × VirtualItem) → Option VirtualItem
  | [] => none
  | (k, it) :: tl => if k = key then some it else itemsLookup key tl

/-- The JS value produced by reading `items[name]` on a plain object: either a
stored `VirtualItem` (an own property) or a truthy non-item inherited from
`Object.prototype` (a function, or the prototype object itself for
`__proto__`). `undefined` is `none` of this type. -/
inductive JsProp where
  | item (it : VirtualItem)
  | protoFn

/-- The property names a plain object literal inherits from
`Object.prototype`, all of which read as truthy values. -/
def protoNames : List String :=
  ["constructor", "hasOwnProperty", "isPrototypeOf", "propertyIsEnumerable",
   "toLocaleString", "toString", "valueOf",
   "__defineGetter__", "__defineSetter__", "__lookupGetter__", "__lookupSetter__",
   "__proto__"]

/-- Whether a key names an `Object.prototype` member. -/
def isProtoName (key : String) : Bool :=
  protoNames.contains key

/-- JS property access `items[name]` on a folder's items record: an own
property if one exists, otherwise the inherited `Object.prototype` member for
those names, otherwise `undefined`. -/
def itemsGet (key : String) (items : List (String × VirtualItem)) : Option JsProp :=
  match itemsLookup key items with
  | some it => some (.item it)
  | none => if isProtoName key then some .protoFn else none

/-- Whether a string is a canonical array-index property key (the decimal form
of an integer 0 ≤ i < 2^32 - 1, with no leading zero except "0" itself):
ECMAScript enumerates these own keys before all other string keys. -/
def isArrayIndexName (s : String) : Bool :=
  match s.toList with
  | [] => false
  | c :: cs =>
    (c :: cs).all Char.isDigit && ((c != '0') || cs.isEmpty) &&
      decide ((c :: cs).foldl (fun acc d => acc * 10 + (d.toNat - 48)) 0 < 4294967295)

/-- The numeric value of a canonical array-index key. -/
def idxVal (s : String) : Nat :=
  s.toList.foldl (fun acc d => acc * 10 + (d.toNat - 48)) 0

/-- Inserts an entry into a list sorted ascending by array-index value. -/
def insertAscBy (kv : String × VirtualItem) :
    List (String × VirtualItem) → List (String × VirtualItem)
  | [] => [kv]
  | hd :: tl => if idxVal kv.1 ≤ idxVal hd.1 then kv :: hd :: tl else hd :: insertAscBy kv tl

/-- Sorts array-index-keyed entries ascending by numeric value. -/
def sortIdx : List (String × VirtualItem) → List (String × VirtualItem)
  | [] => []
  | kv :: tl => insertAscBy kv (sortIdx tl)

/-- `Object.values(items)` per ECMAScript own-property-key order: canonical
array-index keys first in ascending numeric order, then the remaining string
keys in insertion order. -/
def objectValues (items : List (String × VirtualItem)) : List VirtualItem :=
  (sortIdx (items.filter (fun kv => isArrayIndexName kv.1))).map (fun kv => kv.2) ++
    (items.filter (fun kv => !isArrayIndexName kv.1)).map (fun kv => kv.2)

/-- JS record update `items[name] = v` when the key is already present:
the value is replaced in place, the key keeps its position. -/
def setFirst (key : String) (v : VirtualItem) :
    List (String × VirtualItem) → List (String × VirtualItem)
  | [] => []
  | (k, it) :: tl => if k = key then (k, v) :: tl else (k, it) :: setFirst key v tl

/-- JS `delete items[name]`: the entry of that key is removed, all other
entries keep their order. -/
def eraseKey (key : String) : List (String × VirtualItem) → List (String × VirtualItem)
  | [] => []
  | (k, it) :: tl => if k = key then tl else (k, it) :: eraseKey key tl

/-- Rebuilds an items record with the child folder at `key` replaced by `h`
applied to it (the path-copying step of an immer draft write through a
resolved child folder). A non-folder entry at the key is left unchanged:
that case is unreachable after a successful resolution. -/
def replaceFirstFolder (key : String) (h : VirtualFolder → VirtualFolder) :
    List (String × VirtualItem) → List (String × VirtualItem)
  | [] => []
  | (k, it) :: tl =>
    if k = key then
      (k, match it with
          | .folder f => .folder (h f)
          | other => other) :: tl
    else (k, it) :: replaceFirstFolder key h tl

/-- Applies `g` to the items record of the folder reached by walking the given
segments, copying the path from the root to that folder: the pure meaning of
mutating a resolved draft folder inside immer's `produce`. -/
def modifyAt (g : List (String × VirtualItem) → List (String × VirtualItem)) :
    List String → VirtualFolder → VirtualFolder
  | [], .mk n items md => .mk n (g items) md
  | part :: rest, .mk n items md =>
      .mk n (replaceFirstFolder part (fun f => modifyAt g rest f) items) md

/-- The folder walk of `getFolder`: follow each segment into a child that must
read as a stored folder (`!nextFolder || nextFolder.type !== "folder"` — an
inherited prototype member has no `type` and also fails the check), else throw
`Folder "<path>" does not exist.` with the full path string the walk was
invoked with. -/
def walkFolder (orig : String) : List String → VirtualFolder → Except VfsError VirtualFolder
  | [], cur => .ok cur
  | part :: rest, cur =>
    match itemsGet part cur.items with
    | some (.item (.folder f)) => walkFolder orig rest f
    | _ => .error (.folderNotFound orig)

/-- `VirtualFileSystem` of the source: a wrapper around one root folder. -/
structure VirtualFileSystem where
  root : VirtualFolder

/-- `new VirtualFileSystem()`: the root defaults to `createVirtualFolder("")`. -/
def VirtualFileSystem.new : VirtualFileSystem :=
  ⟨createVirtualFolder ""⟩

/-- `getFolder(path)` of the source: normalize the path and walk the segments
from the root. -/
def VirtualFileSystem.getFolder (v : VirtualFileSystem) (path : String) :
    Except VfsError VirtualFolder :=
  walkFolder path (normalizePath path) v.root

/-- The segments of the parent prefix of a path: all normalized segments but
the last (the source's `parts` after `parts.pop()`). -/
def parentSegs (path : String) : List String :=
  (normalizePath path).dropLast

/-- `getParentFolderAndName(path)` of the source: pop the last normalized
segment as the name (`Invalid path` if there is none) and resolve the
remaining prefix with `getFolder(parts.join("/"))`. Re-splitting the join of
nonempty slash-free segments yields the same segments, so the walk proceeds
directly on `parts.dropLast` with the joined string as the error path. -/
def VirtualFileSystem.getParentFolderAndName (v : VirtualFileSystem) (path : String) :
    Except VfsError (VirtualFolder × String) :=
  match (normalizePath path).getLast? with
  | none => .error (.invalidPath path)
  | some name =>
    match walkFolder (joinSlash (parentSegs path)) (parentSegs path) v.root with
    | .error e => .error e
    | .ok parentFolder => .ok (parentFolder, name)

/-- `createFile(path, content = "", metaData = {})` of the source: resolve
parent and name, throw `AlreadyExists` if the truthy membership read
`items[name]` passes — an own item of the name, or an `Object.prototype`
member name — else insert a new file (a fresh own key appends at the end of
the items record). -/
def VirtualFileSystem.createFile (v : VirtualFileSystem) (path : String)
    (content : String := "") (metaData : MetaData := []) :
    Except VfsError VirtualFileSystem :=
  match v.getParentFolderAndName path with
  | .error e => .error e
  | .ok (parentFolder, name) =>
    match itemsGet name parentFolder.items with
    | some _ => .error (.alreadyExists name path)
    | none =>
      .ok ⟨modifyAt (fun items => items ++ [(name, .file (createVirtualFile name content metaData))])
            (parentSegs path) v.root⟩

/-- `createFolder(path, metaData = {})` of the source: same existence check as
`createFile`, inserting a new empty folder. -/
def VirtualFileSystem.createFolder (v : VirtualFileSystem) (path : String)
    (metaData : MetaData := []) : Except VfsError VirtualFileSystem :=
  match v.getParentFolderAndName path with
  | .error e => .error e
  | .ok (parentFolder, name) =>
    match itemsGet name parentFolder.items with
    | some _ => .error (.alreadyExists name path)
    | none =>
      .ok ⟨modifyAt (fun items => items ++ [(name, .folder (createVirtualFolder name metaData))])
            (parentSegs path) v.root⟩

/-- `getFile(path)` of the source: resolve parent and name; the read value
must be a stored file (`!file || file.type !== "file"` — an inherited
prototype member has no `type` and fails the check), else throw
`VirtualFile "<path>" does not exist.`. -/
def VirtualFileSystem.getFile (v : VirtualFileSystem) (path : String) :
    Except VfsError VirtualFile :=
  match v.getParentFolderAndName path with
  | .error e => .error e
  | .ok (parentFolder, name) =>
    match itemsGet name parentFolder.items with
    | some (.item (.file f)) => .ok f
    | _ => .error (.fileNotFound path)

/-- `updateFile(path, content, metaData?)` of the source: resolve the file as
`getFile` does, then write `file.content = content` and
`file.metaData = metaData ?? file.metaData` in place (the key keeps its
position in the parent's items record). -/
def VirtualFileSystem.updateFile (v : VirtualFileSystem) (path : String)
    (content : String) (metaData : Option MetaData := none) :
    Except VfsError VirtualFileSystem :=
  match v.getParentFolderAndName path with
  | .error e => .error e
  | .ok (parentFolder, name) =>
    match itemsGet name parentFolder.items with
    | some (.item (.file f)) =>
      .ok ⟨modifyAt (setFirst name (.file ⟨f.name, content, metaData.getD f.metaData⟩))
            (parentSegs path) v.root⟩
    | _ => .error (.fileNotFound path)

/-- `createOrUpdateFile(path, content = "", metaData = {})` of the source: try
the update, and on any thrown error fall back to the create, both with the
same arguments. -/
def VirtualFileSystem.createOrUpdateFile (v : VirtualFileSystem) (path : String)
    (content : String := "") (metaData : MetaData := []) :
    Except VfsError VirtualFileSystem :=
  match v.updateFile path content (some metaData) with
  | .ok v2 => .ok v2
  | .error _ => v.createFile path content metaData

/-- `delete(path)` of the source: resolve parent and name; a falsy
`items[name]` read throws `"<path>" does not exist.`; a truthy read that is an
inherited `Object.prototype` member passes that check but then throws a
`TypeError` when `.isSystem` is read off its undefined `.metaData`; a stored
entry with truthy `metaData.isSystem` throws the system-protection error, and
otherwise the own mapping entry is removed. -/
def VirtualFileSystem.delete (v : VirtualFileSystem) (path : String) :
    Except VfsError VirtualFileSystem :=
  match v.getParentFolderAndName path with
  | .error e => .error e
  | .ok (parentFolder, name) =>
    match itemsGet name parentFolder.items with
    | none => .error (.notFound path)
    | some .protoFn => .error (.typeError "isSystem")
    | some (.item it) =>
      if metaTruthy "isSystem" it.metaData then .error (.systemProtected path)
      else .ok ⟨modifyAt (eraseKey name) (parentSegs path) v.root⟩

/-- `readFile(path)` of the source: the content of the resolved file. -/
def VirtualFileSystem.readFile (v : VirtualFileSystem) (path : String) :
    Except VfsError String :=
  (v.getFile path).map (fun f => f.content)

/-- `listItems(path = "")` of the source: `Object.values` of the resolved
folder's items record, in ECMAScript own-property-key order (canonical
array-index keys first ascending, then string keys in insertion order). -/
def VirtualFileSystem.listItems (v : VirtualFileSystem) (path : String := "") :
    Except VfsError (List VirtualItem) :=
  (v.getFolder path).map (fun f => objectValues f.items)

/-- `getItem(path)` of the source, `parentFolder.items[name] ?? null`: resolve
parent and name and return the read JS value — a stored item, or the truthy
inherited `Object.prototype` member for such names — with `null` only when the
read is `undefined` (missing intermediate folders still throw). -/
def VirtualFileSystem.getItem (v : VirtualFileSystem) (path : String) :
    Except VfsError (Option JsProp) :=
  match v.getParentFolderAndName path with
  | .error e => .error e
  | .ok (parentFolder, name) => .ok (itemsGet name parentFolder.items)

/-- `exists(path)` of the source: `getItem(path) !== null`, with every thrown
error swallowed into `false`. -/
def VirtualFileSystem.exists (v : VirtualFileSystem) (path : String) : Bool :=
  match v.getItem path with
  | .ok (some _) => true
  | _ => false

/-- `toJSON()` of the source: the root folder itself (the serialized format is
a direct structural mirror of the in-memory model). -/
def VirtualFileSystem.toJSON (v : VirtualFileSystem) : VirtualFolder :=
  v.root

/-- `VirtualFileSystem.fromJSON(data)` of the source: wrap the given root. -/
def VirtualFileSystem.fromJSON (data : VirtualFolder) : VirtualFileSystem :=
  ⟨data⟩

/-- One call of the VFS's mutating interface, for building snapshots by a
sequence of operations. -/
inductive FsOp where
  | createFile (path content : String) (metaData : MetaData)
  | createFolder (path : String) (metaData : MetaData)
  | updateFile (path content : String) (metaData : Option MetaData)
  | delete (path : String)

/-- Applies one operation to a snapshot. -/
def applyOp (v : VirtualFileSystem) : FsOp → Except VfsError VirtualFileSystem
  | .createFile p c md => v.createFile p c md
  | .createFolder p md => v.createFolder p md
  | .updateFile p c md => v.updateFile p c md
  | .delete p => v.delete p

/-- Applies a sequence of operations left to right, stopping at the first
thrown error. -/
def applyOps (v : VirtualFileSystem) : List FsOp → Except VfsError VirtualFileSystem
  | [] => .ok v
  | op :: rest =>
    match applyOp v op with
    | .error e => .error e
    | .ok v2 => applyOps v2 rest

/-! ### Lemmas about resolution and path-copying updates -/

/-- An own entry makes the property read return that stored item. -/
theorem itemsGet_of_lookup (key : String) (items : List (String × VirtualItem))
    (it : VirtualItem) (h : itemsLookup key items = some it) :
    itemsGet key items = some (.item it) := by
  simp [itemsGet, h]

/-- A property read yielding a stored item comes from an own entry. -/
theorem itemsGet_item_inv {key : String} {items : List (String × VirtualItem)}
    {it : VirtualItem} (h : itemsGet key items = some (.item it)) :
    itemsLookup key items = some it := by
  unfold itemsGet at h
  cases hl : itemsLookup key items with
  | some it2 =>
    rw [hl] at h
    simp only [Option.some.injEq, JsProp.item.injEq] at h
    rw [h]
  | none =>
    rw [hl] at h
    by_cases hP : isProtoName key <;> simp [hP] at h

/-- An undefined property read means no own entry and no prototype member. -/
theorem itemsGet_none_inv {key : String} {items : List (String × VirtualItem)}
    (h : itemsGet key items = none) :
    itemsLookup key items = none ∧ isProtoName key = false := by
  unfold itemsGet at h
  cases hl : itemsLookup key items with
  | some it => rw [hl] at h; exact absurd h (by simp)
  | none =>
    rw [hl] at h
    by_cases hP : isProtoName key
    · rw [if_pos hP] at h; exact absurd h (by simp)
    · exact ⟨rfl, by simpa using hP⟩

/-- A successful folder walk does not depend on the path string carried for
error reporting. -/
theorem walkFolder_ok_orig (o o' : String) (segs : List String) :
    ∀ (f x : VirtualFolder), walkFolder o segs f = .ok x → walkFolder o' segs f = .ok x := by
  induction segs with
  | nil => intro f x h; simpa [walkFolder] using h
  | cons part rest ih =>
    intro f x h
    simp only [walkFolder] at h ⊢
    cases hl : itemsGet part f.items with
    | none => rw [hl] at h; exact absurd h (by simp)
    | some jp =>
      rw [hl] at h
      cases jp with
      | protoFn => exact absurd h (by simp)
      | item it =>
        cases it with
        | file f' => exact absurd h (by simp)
        | folder f' => exact ih f' x h

/-- The only error a folder walk raises is `folderNotFound` carrying the full
path string the walk was invoked with. -/
theorem walkFolder_error (o : String) (segs : List String) :
    ∀ (f : VirtualFolder) (e : VfsError), walkFolder o segs f = .error e →
      e = .folderNotFound o := by
  induction segs with
  | nil => intro f e h; simp [walkFolder] at h
  | cons part rest ih =>
    intro f e h
    simp only [walkFolder] at h
    cases hl : itemsGet part f.items with
    | none => rw [hl] at h; simpa using h.symm
    | some jp =>
      rw [hl] at h
      cases jp with
      | protoFn => simpa using h.symm
      | item it =>
        cases it with
        | file f' => simpa using h.symm
        | folder f' => exact ih f' e h

/-- Looking up the modified key after `replaceFirstFolder` yields the rewritten
child folder. -/
theorem itemsLookup_replaceFirstFolder (key : String) (h : VirtualFolder → VirtualFolder) :
    ∀ (items : List (String × VirtualItem)) (f' : VirtualFolder),
      itemsLookup key items = some (.folder f') →
      itemsLookup key (replaceFirstFolder key h items) = some (.folder (h f')) := by
  intro items
  induction items with
  | nil => intro f' hl; simp [itemsLookup] at hl
  | cons kv tl ih =>
    intro f' hl
    obtain ⟨k, it⟩ := kv
    by_cases hk : k = key
    · subst hk
      simp only [itemsLookup, if_pos rfl] at hl
      cases hl
      simp [replaceFirstFolder, itemsLookup]
    · simp only [itemsLookup, if_neg hk] at hl
      simpa [replaceFirstFolder, itemsLookup, if_neg hk] using ih f' hl

/-- Walking the same segments after `modifyAt` on those segments reaches the
same folder with `g` applied to its items record. -/
theorem walkFolder_modifyAt (g : List (String × VirtualItem) → List (String × VirtualItem))
    (o o' : String) (segs : List String) :
    ∀ (f sub : VirtualFolder), walkFolder o segs f = .ok sub →
      walkFolder o' segs (modifyAt g segs f) = .ok (.mk sub.name (g sub.items) sub.metaData) := by
  induction segs with
  | nil =>
    intro f sub h
    simp only [walkFolder] at h
    cases h
    cases f with
    | mk n items md => simp [modifyAt, walkFolder, VirtualFolder.name, VirtualFolder.items,
        VirtualFolder.metaData]
  | cons part rest ih =>
    intro f sub h
    simp only [walkFolder] at h
    cases hl : itemsGet part f.items with
    | none => rw [hl] at h; exact absurd h (by simp)
    | some jp =>
      rw [hl] at h
      cases jp with
      | protoFn => exact absurd h (by simp)
      | item it =>
        cases it with
        | file f' => exact absurd h (by simp)
        | folder f' =>
          cases f with
          | mk n items md =>
            simp only [VirtualFolder.items] at hl
            have hrep := itemsLookup_replaceFirstFolder part (fun f => modifyAt g rest f)
              items f' (itemsGet_item_inv hl)
            simp only [modifyAt, walkFolder, VirtualFolder.items,
              itemsGet_of_lookup part _ _ hrep]
            exact ih f' sub h

/-- Appending a fresh own key makes it the looked-up own value. -/
theorem itemsLookup_append_fresh (key : String) (x : VirtualItem) :
    ∀ (l : List (String × VirtualItem)), itemsLookup key l = none →
      itemsLookup key (l ++ [(key, x)]) = some x := by
  intro l
  induction l with
  | nil => intro _; simp [itemsLookup]
  | cons kv tl ih =>
    intro hl
    obtain ⟨k, it⟩ := kv
    by_cases hk : k = key
    · subst hk; simp [itemsLookup] at hl
    · simp only [itemsLookup, if_neg hk] at hl ⊢
      exact ih hl

/-- Setting a present own key makes the new value the looked-up own value. -/
theorem itemsLookup_setFirst (key : String) (v : VirtualItem) :
    ∀ (l : List (String × VirtualItem)) (it0 : VirtualItem),
      itemsLookup key l = some it0 →
      itemsLookup key (setFirst key v l) = some v := by
  intro l
  induction l with
  | nil => intro it0 hl; simp [itemsLookup] at hl
  | cons kv tl ih =>
    intro it0 hl
    obtain ⟨k, it⟩ := kv
    by_cases hk : k = key
    · subst hk; simp [setFirst, itemsLookup]
    · simp only [itemsLookup, setFirst, if_neg hk] at hl ⊢
      exact ih it0 hl

/-- After appending a key the property read was undefined for, the read yields
the new stored item. -/
theorem itemsGet_append_fresh (key : String) (x : VirtualItem)
    (l : List (String × VirtualItem)) (h : itemsGet key l = none) :
    itemsGet key (l ++ [(key, x)]) = some (.item x) :=
  itemsGet_of_lookup key _ x (itemsLookup_append_fresh key x l (itemsGet_none_inv h).1)

/-- After setting a key whose read was a stored item, the read yields the new
stored item. -/
theorem itemsGet_setFirst (key : String) (v : VirtualItem)
    (l : List (String × VirtualItem)) (it0 : VirtualItem)
    (h : itemsGet key l = some (.item it0)) :
    itemsGet key (setFirst key v l) = some (.item v) :=
  itemsGet_of_lookup key _ v (itemsLookup_setFirst key v l it0 (itemsGet_item_inv h))

/-- Appending an entry whose key is not an array index appends its value at
the end of the `Object.values` enumeration. -/
theorem objectValues_append_nonidx (k : String) (x : VirtualItem)
    (l : List (String × VirtualItem)) (hk : isArrayIndexName k = false) :
    objectValues (l ++ [(k, x)]) = objectValues l ++ [x] := by
  unfold objectValues
  simp [List.filter_append, hk, List.append_assoc]

/-- Inversion of a successful parent resolution: the name is the last
normalized segment and the prefix walk succeeds. -/
theorem getParentFolderAndName_ok_inv {v : VirtualFileSystem} {p : String}
    {parentFolder : VirtualFolder} {name : String}
    (h : v.getParentFolderAndName p = .ok (parentFolder, name)) :
    (normalizePath p).getLast? = some name ∧
      walkFolder (joinSlash (parentSegs p)) (parentSegs p) v.root = .ok parentFolder := by
  unfold VirtualFileSystem.getParentFolderAndName at h
  split at h
  · exact absurd h (by simp)
  next nm hn =>
    split at h
    · exact absurd h (by simp)
    next pf hw =>
      simp only [Except.ok.injEq, Prod.mk.injEq] at h
      obtain ⟨h1, h2⟩ := h
      exact ⟨h2 ▸ hn, h1 ▸ hw⟩

/-- Building a successful parent resolution from its two ingredients. -/
theorem getParentFolderAndName_eq {v : VirtualFileSystem} {p : String}
    {parentFolder : VirtualFolder} {name : String}
    (hn : (normalizePath p).getLast? = some name)
    (hw : walkFolder (joinSlash (parentSegs p)) (parentSegs p) v.root = .ok parentFolder) :
    v.getParentFolderAndName p = .ok (parentFolder, name) := by
  unfold VirtualFileSystem.getParentFolderAndName
  rw [hn, hw]

/-- After a path-copying update below the parent of `p`, the parent of `p`
resolves to the same folder with the update applied to its items record. -/
theorem getParentFolderAndName_modifyAt {v : VirtualFileSystem} {p : String}
    {parentFolder : VirtualFolder} {name : String}
    (g : List (String × VirtualItem) → List (String × VirtualItem))
    (hp : v.getParentFolderAndName p = .ok (parentFolder, name)) :
    (VirtualFileSystem.mk (modifyAt g (parentSegs p) v.root)).getParentFolderAndName p =
      .ok (.mk parentFolder.name (g parentFolder.items) parentFolder.metaData, name) := by
  obtain ⟨hn, hw⟩ := getParentFolderAndName_ok_inv hp
  exact getParentFolderAndName_eq hn
    (walkFolder_modifyAt g _ _ (parentSegs p) v.root parentFolder hw)

/-- Inversion of a successful `createFile`: the parent resolved, the truthy
membership read failed (no own entry, no prototype member), and the new
snapshot appends the new file at the parent. -/
theorem createFile_ok_inv {v : VirtualFileSystem} {p c : String} {md : MetaData}
    {v2 : VirtualFileSystem} (h : v.createFile p c md = .ok v2) :
    ∃ parentFolder name, v.getParentFolderAndName p = .ok (parentFolder, name) ∧
      itemsGet name parentFolder.items = none ∧
      v2 = ⟨modifyAt (fun items => items ++ [(name, .file ⟨name, c, md⟩)])
              (parentSegs p) v.root⟩ := by
  unfold VirtualFileSystem.createFile at h
  split at h
  · exact absurd h (by simp)
  next parentFolder name hp =>
    split at h
    · exact absurd h (by simp)
    next hl =>
      simp only [Except.ok.injEq] at h
      exact ⟨parentFolder, name, hp, hl, h.symm⟩

/-- Inversion of a successful `delete`: the parent resolved, the read was a
stored entry that is not system-protected, and the new snapshot erases the
key. -/
theorem delete_ok_inv {v : VirtualFileSystem} {p : String} {v2 : VirtualFileSystem}
    (h : v.delete p = .ok v2) :
    ∃ parentFolder name it, v.getParentFolderAndName p = .ok (parentFolder, name) ∧
      itemsGet name parentFolder.items = some (.item it) ∧
      metaTruthy "isSystem" it.metaData = false ∧
      v2 = ⟨modifyAt (eraseKey name) (parentSegs p) v.root⟩ := by
  unfold VirtualFileSystem.delete at h
  split at h
  · exact absurd h (by simp)
  next parentFolder name hp =>
    split at h
    · exact absurd h (by simp)
    · exact absurd h (by simp)
    next it hl =>
      split at h
      · exact absurd h (by simp)
      next hs =>
        simp only [Except.ok.injEq] at h
        exact ⟨parentFolder, name, it, hp, hl, by simpa using hs, h.symm⟩

/-- Evaluating `exists` once the parent resolution is known: true exactly when
the property read is defined (a stored item or an inherited member). -/
theorem exists_of_resolved {v : VirtualFileSystem} {p : String}
    {parentFolder : VirtualFolder} {name : String}
    (hp : v.getParentFolderAndName p = .ok (parentFolder, name)) :
    v.exists p = (itemsGet name parentFolder.items).isSome := by
  unfold VirtualFileSystem.exists VirtualFileSystem.getItem
  rw [hp]
  cases hl : itemsGet name parentFolder.items <;> simp [hl]

/-- Evaluating `getItem` once the parent resolution is known. -/
theorem getItem_of_resolved {v : VirtualFileSystem} {p : String}
    {parentFolder : VirtualFolder} {name : String}
    (hp : v.getParentFolderAndName p = .ok (parentFolder, name)) :
    v.getItem p = .ok (itemsGet name parentFolder.items) := by
  unfold VirtualFileSystem.getItem
  rw [hp]

/-- C1: snapshots are immutable values: every operation either throws (and no
new snapshot exists at all, the `Except.error` case) or returns a fresh
snapshot, never touching the receiver, whose observables are a pure function
of its value; in particular a successful `createFile(p, c)` on `v1` proves the
name was absent, so `v1.exists p` is (still) `false` afterwards, and a
successful `delete p` proves the entry was present, so `v1.exists p` is
(still) `true` afterwards. -/
theorem c1_snapshot_immutability (v : VirtualFileSystem) (p c : String) (md : MetaData) :
    (∀ v2, v.createFile p c md = .ok v2 → v.exists p = false) ∧
    (∀ v3, v.delete p = .ok v3 → v.exists p = true) := by
  constructor
  · intro v2 h
    obtain ⟨parentFolder, name, hp, hl, -⟩ := createFile_ok_inv h
    rw [exists_of_resolved hp, hl]
    rfl
  · intro v3 h
    obtain ⟨parentFolder, name, it, hp, hl, -, -⟩ := delete_ok_inv h
    rw [exists_of_resolved hp, hl]
    rfl

/-- Witness for C1 at concrete inputs: on the empty filesystem `createFile
"a.txt"` succeeds and `exists "a.txt"` is false on the original; on a
filesystem holding `a.txt`, `delete "a.txt"` succeeds and `exists "a.txt"` is
true on the original. -/
theorem c1_snapshot_immutability_witness :
    VirtualFileSystem.new.exists "a.txt" = false ∧
    (VirtualFileSystem.fromJSON
      (.mk "" [("a.txt", .file ⟨"a.txt", "x", []⟩)] [])).exists "a.txt" = true :=
  ⟨(c1_snapshot_immutability VirtualFileSystem.new "a.txt" "x" []).1
      ⟨.mk "" [("a.txt", .file ⟨"a.txt", "x", []⟩)] []⟩ (by rfl),
   (c1_snapshot_immutability
      (VirtualFileSystem.fromJSON (.mk "" [("a.txt", .file ⟨"a.txt", "x", []⟩)] []))
      "a.txt" "x" []).2 ⟨.mk "" [] []⟩ (by rfl)⟩

/-- C2: for every filesystem built by a sequence of create/update/delete
operations from the empty filesystem, serializing with `toJSON` and
deserializing with `fromJSON` yields a filesystem with identical `listItems`
and `readFile` results at every path: `toJSON` exposes the root and `fromJSON`
wraps it back, a lossless round-trip. -/
theorem c2_roundtrip (ops : List FsOp) (v : VirtualFileSystem)
    (_hops : applyOps VirtualFileSystem.new ops = .ok v) (p : String) :
    (VirtualFileSystem.fromJSON v.toJSON).listItems p = v.listItems p ∧
    (VirtualFileSystem.fromJSON v.toJSON).readFile p = v.readFile p :=
  ⟨rfl, rfl⟩

/-- Witness for C2: the folder/two-files build of the test suite round-trips
with identical listing and read results. -/
theorem c2_roundtrip_witness :
    applyOps VirtualFileSystem.new
        [.createFolder "folder" [], .createFile "folder/file1.txt" "Content 1" [],
         .createFile "folder/file2.txt" "Content 2" []] =
      .ok ⟨.mk ""
        [("folder", .folder (.mk "folder"
          [("file1.txt", .file ⟨"file1.txt", "Content 1", []⟩),
           ("file2.txt", .file ⟨"file2.txt", "Content 2", []⟩)] []))] []⟩ ∧
    ((VirtualFileSystem.fromJSON
        (VirtualFileSystem.toJSON ⟨.mk ""
          [("folder", .folder (.mk "folder"
            [("file1.txt", .file ⟨"file1.txt", "Content 1", []⟩),
             ("file2.txt", .file ⟨"file2.txt", "Content 2", []⟩)] []))] []⟩)).listItems
        "folder" =
      (⟨.mk ""
        [("folder", .folder (.mk "folder"
          [("file1.txt", .file ⟨"file1.txt", "Content 1", []⟩),
           ("file2.txt", .file ⟨"file2.txt", "Content 2", []⟩)] []))] []⟩ :
        VirtualFileSystem).listItems "folder") :=
  ⟨by rfl,
   (c2_roundtrip
      [.createFolder "folder" [], .createFile "folder/file1.txt" "Content 1" [],
       .createFile "folder/file2.txt" "Content 2" []]
      ⟨.mk ""
        [("folder", .folder (.mk "folder"
          [("file1.txt", .file ⟨"file1.txt", "Content 1", []⟩),
           ("file2.txt", .file ⟨"file2.txt", "Content 2", []⟩)] []))] []⟩
      (by rfl) "folder").1⟩

/-- C9: on the empty filesystem, `createFile "nonexistent/folder/structure/test.txt"`
throws the folder error naming exactly the folder prefix
`"nonexistent/folder/structure"` of the requested path — not the full original
path and not a shorter prefix — with the exact message of the source. -/
theorem c9_deep_path_failure :
    VirtualFileSystem.new.createFile "nonexistent/folder/structure/test.txt" "x" [] =
      .error (.folderNotFound "nonexistent/folder/structure") ∧
    (VfsError.folderNotFound "nonexistent/folder/structure").message =
      "Folder \"nonexistent/folder/structure\" does not exist." ∧
    "nonexistent/folder/structure" ≠ "nonexistent/folder/structure/test.txt" ∧
    "nonexistent/folder/structure" ≠ "nonexistent/folder" ∧
    "nonexistent/folder/structure" ≠ "nonexistent" :=
  ⟨by rfl, by rfl, by decide, by decide, by decide⟩

/-- Counterexample to C4: the membership check `if (parentFolder.items[name])`
is a truthy property read through the prototype chain, so on the empty root —
which the first conjunct shows contains no item at all — creating a file or a
folder named `toString` (an `Object.prototype` member) throws `AlreadyExists`,
where the claim requires the creation on a fresh name to insert. -/
theorem c4_create_counterexample :
    VirtualFileSystem.new.listItems "" = .ok [] ∧
    VirtualFileSystem.new.createFile "toString" "x" [] =
      .error (.alreadyExists "toString" "toString") ∧
    VirtualFileSystem.new.createFolder "toString" [] =
      .error (.alreadyExists "toString" "toString") :=
  ⟨by rfl, by rfl, by rfl⟩

/-- C4 (amended): once the parent of the path resolves, `createFile` and
`createFolder` throw `AlreadyExists(name, path)` whenever the truthy
membership read `items[name]` is defined — any item of the target name already
present, whatever the kinds of the existing and new items, and also any
`Object.prototype` member name such as `toString` even with no such item
present — and never overwrite; on a fresh name that reads as undefined (no own
item and not a prototype member name) the new file, or new empty folder, is
inserted and found at the path afterwards. -/
theorem c4_create_uniqueness (v : VirtualFileSystem) (p c : String) (md md2 : MetaData)
    (parentFolder : VirtualFolder) (name : String)
    (hp : v.getParentFolderAndName p = .ok (parentFolder, name)) :
    (∀ jp, itemsGet name parentFolder.items = some jp →
      v.createFile p c md = .error (.alreadyExists name p) ∧
      v.createFolder p md2 = .error (.alreadyExists name p)) ∧
    (itemsGet name parentFolder.items = none →
      (∃ v2, v.createFile p c md = .ok v2 ∧
        v2.getItem p = .ok (some (.item (.file ⟨name, c, md⟩)))) ∧
      (∃ v3, v.createFolder p md2 = .ok v3 ∧
        v3.getItem p = .ok (some (.item (.folder (.mk name [] md2)))))) := by
  obtain ⟨pn, pitems, pmd⟩ := parentFolder
  simp only [VirtualFolder.items]
  constructor
  · intro jp hl
    constructor
    · simp [VirtualFileSystem.createFile, hp, VirtualFolder.items, hl]
    · simp [VirtualFileSystem.createFolder, hp, VirtualFolder.items, hl]
  · intro hl
    constructor
    · refine ⟨⟨modifyAt (fun items => items ++ [(name, .file ⟨name, c, md⟩)])
        (parentSegs p) v.root⟩, ?_, ?_⟩
      · simp [VirtualFileSystem.createFile, hp, VirtualFolder.items, hl, createVirtualFile]
      · rw [getItem_of_resolved (getParentFolderAndName_modifyAt _ hp)]
        simp only [VirtualFolder.items]
        rw [itemsGet_append_fresh name _ pitems hl]
    · refine ⟨⟨modifyAt (fun items => items ++ [(name, .folder (.mk name [] md2))])
        (parentSegs p) v.root⟩, ?_, ?_⟩
      · simp [VirtualFileSystem.createFolder, hp, VirtualFolder.items, hl, createVirtualFolder]
      · rw [getItem_of_resolved (getParentFolderAndName_modifyAt _ hp)]
        simp only [VirtualFolder.items]
        rw [itemsGet_append_fresh name _ pitems hl]

/-- Witness for C4 (amended) at concrete inputs: with `x` already present,
creating `x` as a file or folder throws `AlreadyExists`; the prototype member
name `toString` also throws `AlreadyExists`; with `y` fresh, both creations
succeed and the new item is found at the path. -/
theorem c4_create_uniqueness_witness :
    ((VirtualFileSystem.fromJSON (.mk "" [("x", .file ⟨"x", "A", []⟩)] [])).createFile
        "x" "B" [] = .error (.alreadyExists "x" "x") ∧
      (VirtualFileSystem.fromJSON (.mk "" [("x", .file ⟨"x", "A", []⟩)] [])).createFolder
        "x" [] = .error (.alreadyExists "x" "x")) ∧
    ((VirtualFileSystem.fromJSON (.mk "" [("x", .file ⟨"x", "A", []⟩)] [])).createFile
        "toString" "B" [] = .error (.alreadyExists "toString" "toString") ∧
      (VirtualFileSystem.fromJSON (.mk "" [("x", .file ⟨"x", "A", []⟩)] [])).createFolder
        "toString" [] = .error (.alreadyExists "toString" "toString")) ∧
    ((∃ v2, (VirtualFileSystem.fromJSON (.mk "" [("x", .file ⟨"x", "A", []⟩)] [])).createFile
        "y" "B" [] = .ok v2 ∧
        v2.getItem "y" = .ok (some (.item (.file ⟨"y", "B", []⟩)))) ∧
      (∃ v3, (VirtualFileSystem.fromJSON (.mk "" [("x", .file ⟨"x", "A", []⟩)] [])).createFolder
        "y" [] = .ok v3 ∧
        v3.getItem "y" = .ok (some (.item (.folder (.mk "y" [] [])))))) :=
  ⟨(c4_create_uniqueness (VirtualFileSystem.fromJSON (.mk "" [("x", .file ⟨"x", "A", []⟩)] []))
      "x" "B" [] [] (.mk "" [("x", .file ⟨"x", "A", []⟩)] []) "x" (by rfl)).1
      (.item (.file ⟨"x", "A", []⟩)) (by rfl),
   (c4_create_uniqueness (VirtualFileSystem.fromJSON (.mk "" [("x", .file ⟨"x", "A", []⟩)] []))
      "toString" "B" [] [] (.mk "" [("x", .file ⟨"x", "A", []⟩)] []) "toString" (by rfl)).1
      .protoFn (by rfl),
   (c4_create_uniqueness (VirtualFileSystem.fromJSON (.mk "" [("x", .file ⟨"x", "A", []⟩)] []))
      "y" "B" [] [] (.mk "" [("x", .file ⟨"x", "A", []⟩)] []) "y" (by rfl)).2 (by rfl)⟩

/-- Counterexample to C5, on two grounds. First, the system guard is JS
truthiness of `metaData.isSystem`, not a strict `=== true` comparison: a file
created with `isSystem: 1` has `metaData.isSystem !== true`, so the claim's
"otherwise the entry is removed" requires the `delete` to succeed, yet the
code throws `SystemProtected`. Second, for an `Object.prototype` member name
such as `toString` on the empty root — which contains no entry at all — the
truthy inherited read passes the existence check and the code throws a
`TypeError` reading `.isSystem` off the undefined `.metaData`, not the
`NotFound` the claim requires for an absent entry. -/
theorem c5_delete_counterexample :
    applyOps VirtualFileSystem.new
        [.createFile "x" "" [("isSystem", .num 1)], .delete "x"] =
      .error (.systemProtected "x") ∧
    metaLookup "isSystem" [("isSystem", MetaValue.num 1)] ≠ some (.bool true) ∧
    VirtualFileSystem.new.listItems "" = .ok [] ∧
    VirtualFileSystem.new.delete "toString" = .error (.typeError "isSystem") :=
  ⟨by rfl, by decide, by rfl, by rfl⟩

/-- C5 (amended): once the parent of the path resolves, `delete` throws
`NotFound` when the property read of the name is undefined (no entry and not a
prototype member name); throws a `TypeError` reading `isSystem` when the read
is an inherited `Object.prototype` member such as `toString` (the truthy read
passes the existence check and `.metaData` is undefined); throws
`SystemProtected` when the stored entry's `metaData.isSystem` is truthy in the
JS sense — any truthy value, not only `true` itself; in particular any item
created with `isSystem = true` cannot be deleted — and otherwise, uniformly
for files and folders including non-empty folders, returns a snapshot in
which exactly that mapping entry is removed from the parent (any subtree
discarded wholesale). -/
theorem c5_delete_behavior (v : VirtualFileSystem) (p : String)
    (parentFolder : VirtualFolder) (name : String)
    (hp : v.getParentFolderAndName p = .ok (parentFolder, name)) :
    (itemsGet name parentFolder.items = none → v.delete p = .error (.notFound p)) ∧
    (itemsGet name parentFolder.items = some .protoFn →
      v.delete p = .error (.typeError "isSystem")) ∧
    (∀ it, itemsGet name parentFolder.items = some (.item it) →
      (metaTruthy "isSystem" it.metaData = true → v.delete p = .error (.systemProtected p)) ∧
      (metaTruthy "isSystem" it.metaData = false →
        ∃ v2, v.delete p = .ok v2 ∧
          v2.getParentFolderAndName p =
            .ok (.mk parentFolder.name (eraseKey name parentFolder.items)
              parentFolder.metaData, name))) := by
  obtain ⟨pn, pitems, pmd⟩ := parentFolder
  simp only [VirtualFolder.items, VirtualFolder.name, VirtualFolder.metaData]
  refine ⟨?_, ?_, ?_⟩
  · intro hl
    simp [VirtualFileSystem.delete, hp, VirtualFolder.items, hl]
  · intro hl
    simp [VirtualFileSystem.delete, hp, VirtualFolder.items, hl]
  · intro it hl
    constructor
    · intro hs
      simp [VirtualFileSystem.delete, hp, VirtualFolder.items, hl, hs]
    · intro hs
      refine ⟨⟨modifyAt (eraseKey name) (parentSegs p) v.root⟩, ?_, ?_⟩
      · simp [VirtualFileSystem.delete, hp, VirtualFolder.items, hl, hs]
      · exact getParentFolderAndName_modifyAt _ hp

/-- Witness for C5 (amended) at concrete inputs: deleting a missing ordinary
name throws `NotFound`; deleting the prototype member name `toString` throws
the `TypeError`; deleting a file created with `isSystem = true` throws
`SystemProtected`; deleting an unprotected non-empty folder succeeds and
removes exactly its entry. -/
theorem c5_delete_behavior_witness :
    (VirtualFileSystem.fromJSON (.mk ""
        [("sys.txt", .file ⟨"sys.txt", "s", [("isSystem", .bool true)]⟩),
         ("d", .folder (.mk "d" [("inner.txt", .file ⟨"inner.txt", "i", []⟩)] []))]
        [])).delete "gone" = .error (.notFound "gone") ∧
    (VirtualFileSystem.fromJSON (.mk ""
        [("sys.txt", .file ⟨"sys.txt", "s", [("isSystem", .bool true)]⟩),
         ("d", .folder (.mk "d" [("inner.txt", .file ⟨"inner.txt", "i", []⟩)] []))]
        [])).delete "toString" = .error (.typeError "isSystem") ∧
    (VirtualFileSystem.fromJSON (.mk ""
        [("sys.txt", .file ⟨"sys.txt", "s", [("isSystem", .bool true)]⟩),
         ("d", .folder (.mk "d" [("inner.txt", .file ⟨"inner.txt", "i", []⟩)] []))]
        [])).delete "sys.txt" = .error (.systemProtected "sys.txt") ∧
    (∃ v2, (VirtualFileSystem.fromJSON (.mk ""
        [("sys.txt", .file ⟨"sys.txt", "s", [("isSystem", .bool true)]⟩),
         ("d", .folder (.mk "d" [("inner.txt", .file ⟨"inner.txt", "i", []⟩)] []))]
        [])).delete "d" = .ok v2 ∧
      v2.getParentFolderAndName "d" =
        .ok (.mk "" (eraseKey "d"
          [("sys.txt", .file ⟨"sys.txt", "s", [("isSystem", .bool true)]⟩),
           ("d", .folder (.mk "d" [("inner.txt", .file ⟨"inner.txt", "i", []⟩)] []))])
          [], "d")) :=
  ⟨(c5_delete_behavior _ "gone" (.mk ""
      [("sys.txt", .file ⟨"sys.txt", "s", [("isSystem", .bool true)]⟩),
       ("d", .folder (.mk "d" [("inner.txt", .file ⟨"inner.txt", "i", []⟩)] []))] [])
      "gone" (by rfl)).1 (by rfl),
   (c5_delete_behavior _ "toString" (.mk ""
      [("sys.txt", .file ⟨"sys.txt", "s", [("isSystem", .bool true)]⟩),
       ("d", .folder (.mk "d" [("inner.txt", .file ⟨"inner.txt", "i", []⟩)] []))] [])
      "toString" (by rfl)).2.1 (by rfl),
   ((c5_delete_behavior _ "sys.txt" (.mk ""
      [("sys.txt", .file ⟨"sys.txt", "s", [("isSystem", .bool true)]⟩),
       ("d", .folder (.mk "d" [("inner.txt", .file ⟨"inner.txt", "i", []⟩)] []))] [])
      "sys.txt" (by rfl)).2.2 (.file ⟨"sys.txt", "s", [("isSystem", .bool true)]⟩)
      (by rfl)).1 (by rfl),
   ((c5_delete_behavior _ "d" (.mk ""
      [("sys.txt", .file ⟨"sys.txt", "s", [("isSystem", .bool true)]⟩),
       ("d", .folder (.mk "d" [("inner.txt", .file ⟨"inner.txt", "i", []⟩)] []))] [])
      "d" (by rfl)).2.2 (.folder (.mk "d" [("inner.txt", .file ⟨"inner.txt", "i", []⟩)] []))
      (by rfl)).2 (by rfl)⟩

/-- C6: once the parent of the path resolves, `updateFile` throws the
file-not-found error when the entry is absent or is a folder; on an existing
file it replaces the content, and it replaces the metadata exactly when the
`metaData` argument is supplied, preserving the existing metadata when the
argument is omitted. -/
theorem c6_update_file (v : VirtualFileSystem) (p c : String)
    (parentFolder : VirtualFolder) (name : String)
    (hp : v.getParentFolderAndName p = .ok (parentFolder, name)) :
    (itemsLookup name parentFolder.items = none →
      ∀ md, v.updateFile p c md = .error (.fileNotFound p)) ∧
    (∀ fd, itemsLookup name parentFolder.items = some (.folder fd) →
      ∀ md, v.updateFile p c md = .error (.fileNotFound p)) ∧
    (∀ f, itemsLookup name parentFolder.items = some (.file f) →
      (∃ v2, v.updateFile p c = .ok v2 ∧
        v2.readFile p = .ok c ∧
        v2.getItem p = .ok (some (.item (.file ⟨f.name, c, f.metaData⟩)))) ∧
      (∀ m, ∃ v3, v.updateFile p c (some m) = .ok v3 ∧
        v3.getItem p = .ok (some (.item (.file ⟨f.name, c, m⟩))))) := by
  obtain ⟨pn, pitems, pmd⟩ := parentFolder
  simp only [VirtualFolder.items]
  refine ⟨?_, ?_, ?_⟩
  · intro hl md
    by_cases hP : isProtoName name <;>
      simp [VirtualFileSystem.updateFile, hp, VirtualFolder.items, itemsGet, hl, hP]
  · intro fd hl md
    simp [VirtualFileSystem.updateFile, hp, VirtualFolder.items, itemsGet, hl]
  · intro f hl
    have hg : itemsGet name pitems = some (.item (.file f)) :=
      itemsGet_of_lookup name pitems (.file f) hl
    constructor
    · refine ⟨⟨modifyAt (setFirst name (.file ⟨f.name, c, f.metaData⟩))
        (parentSegs p) v.root⟩, ?_, ?_, ?_⟩
      · simp [VirtualFileSystem.updateFile, hp, VirtualFolder.items, hg]
      · unfold VirtualFileSystem.readFile VirtualFileSystem.getFile
        rw [getParentFolderAndName_modifyAt _ hp]
        simp only [VirtualFolder.items]
        rw [itemsGet_setFirst name _ pitems _ hg]
        rfl
      · rw [getItem_of_resolved (getParentFolderAndName_modifyAt _ hp)]
        simp only [VirtualFolder.items]
        rw [itemsGet_setFirst name _ pitems _ hg]
    · intro m
      refine ⟨⟨modifyAt (setFirst name (.file ⟨f.name, c, m⟩))
        (parentSegs p) v.root⟩, ?_, ?_⟩
      · simp [VirtualFileSystem.updateFile, hp, VirtualFolder.items, hg]
      · rw [getItem_of_resolved (getParentFolderAndName_modifyAt _ hp)]
        simp only [VirtualFolder.items]
        rw [itemsGet_setFirst name _ pitems _ hg]

/-- Witness for C6 at concrete inputs: the spec's example — after creating
file `x` with content `A` and metadata tag 1, `updateFile "x" "B"` with the
metadata omitted yields content `B` with metadata still tag 1, and supplying
metadata replaces it; updating a missing name or a folder throws. -/
theorem c6_update_file_witness :
    ((VirtualFileSystem.fromJSON (.mk ""
        [("x", .file ⟨"x", "A", [("tag", .num 1)]⟩), ("d", .folder (.mk "d" [] []))]
        [])).updateFile "gone" "B" = .error (.fileNotFound "gone") ∧
      (VirtualFileSystem.fromJSON (.mk ""
        [("x", .file ⟨"x", "A", [("tag", .num 1)]⟩), ("d", .folder (.mk "d" [] []))]
        [])).updateFile "d" "B" = .error (.fileNotFound "d")) ∧
    (∃ v2, (VirtualFileSystem.fromJSON (.mk ""
        [("x", .file ⟨"x", "A", [("tag", .num 1)]⟩), ("d", .folder (.mk "d" [] []))]
        [])).updateFile "x" "B" = .ok v2 ∧
      v2.readFile "x" = .ok "B" ∧
      v2.getItem "x" = .ok (some (.item (.file ⟨"x", "B", [("tag", .num 1)]⟩)))) :=
  ⟨⟨(c6_update_file _ "gone" "B" (.mk ""
        [("x", .file ⟨"x", "A", [("tag", .num 1)]⟩), ("d", .folder (.mk "d" [] []))] [])
        "gone" (by rfl)).1 (by rfl) none,
    ((c6_update_file _ "d" "B" (.mk ""
        [("x", .file ⟨"x", "A", [("tag", .num 1)]⟩), ("d", .folder (.mk "d" [] []))] [])
        "d" (by rfl)).2.1 (.mk "d" [] []) (by rfl)) none⟩,
   ((c6_update_file _ "x" "B" (.mk ""
        [("x", .file ⟨"x", "A", [("tag", .num 1)]⟩), ("d", .folder (.mk "d" [] []))] [])
        "x" (by rfl)).2.2 ⟨"x", "A", [("tag", .num 1)]⟩ (by rfl)).1⟩

/-- C7: `createOrUpdateFile` tries `updateFile` with its arguments first; if
the update succeeds its snapshot is returned and `createFile` is never
consulted, and if the update throws any error whatsoever the result is exactly
that of `createFile` with the same arguments — including that create's error,
if it too fails. -/
theorem c7_createOrUpdate_fallback (v : VirtualFileSystem) (p c : String) (md : MetaData) :
    (∀ v2, v.updateFile p c (some md) = .ok v2 → v.createOrUpdateFile p c md = .ok v2) ∧
    (∀ e, v.updateFile p c (some md) = .error e →
      v.createOrUpdateFile p c md = v.createFile p c md) := by
  constructor
  · intro v2 h
    simp [VirtualFileSystem.createOrUpdateFile, h]
  · intro e h
    simp [VirtualFileSystem.createOrUpdateFile, h]

/-- Witness for C7 at concrete inputs: on a filesystem holding folder `d`,
updating `d` throws, and `createOrUpdateFile "d"` equals `createFile "d"`
(which then throws `AlreadyExists`); on a filesystem holding file `x`, the
update succeeds and its snapshot is returned. -/
theorem c7_createOrUpdate_fallback_witness :
    ((VirtualFileSystem.fromJSON (.mk "" [("d", .folder (.mk "d" [] []))] [])).updateFile
        "d" "B" (some []) = .error (.fileNotFound "d") ∧
      (VirtualFileSystem.fromJSON (.mk "" [("d", .folder (.mk "d" [] []))] [])).createOrUpdateFile
        "d" "B" [] =
        (VirtualFileSystem.fromJSON (.mk "" [("d", .folder (.mk "d" [] []))] [])).createFile
          "d" "B" []) ∧
    ((VirtualFileSystem.fromJSON (.mk "" [("x", .file ⟨"x", "A", []⟩)] [])).updateFile
        "x" "B" (some []) = .ok ⟨.mk "" [("x", .file ⟨"x", "B", []⟩)] []⟩ ∧
      (VirtualFileSystem.fromJSON (.mk "" [("x", .file ⟨"x", "A", []⟩)] [])).createOrUpdateFile
        "x" "B" [] = .ok ⟨.mk "" [("x", .file ⟨"x", "B", []⟩)] []⟩) :=
  ⟨⟨by rfl,
    (c7_createOrUpdate_fallback
        (VirtualFileSystem.fromJSON (.mk "" [("d", .folder (.mk "d" [] []))] []))
        "d" "B" []).2 (.fileNotFound "d") (by rfl)⟩,
   ⟨by rfl,
    (c7_createOrUpdate_fallback
        (VirtualFileSystem.fromJSON (.mk "" [("x", .file ⟨"x", "A", []⟩)] []))
        "x" "B" []).1 ⟨.mk "" [("x", .file ⟨"x", "B", []⟩)] []⟩ (by rfl)⟩⟩

/-- Counterexample to C8: `Object.values` enumerates canonical array-index
keys first in ascending numeric order, before string keys in insertion order.
Creating `folder/b.txt` and then `folder/2` lists `2` before `b.txt`, the
opposite of creation order, refuting the claim for arbitrary child names. -/
theorem c8_listing_counterexample :
    applyOps VirtualFileSystem.new
        [.createFolder "folder" [], .createFile "folder/b.txt" "B" [],
         .createFile "folder/2" "N" []] =
      .ok ⟨.mk "" [("folder", .folder (.mk "folder"
        [("b.txt", .file ⟨"b.txt", "B", []⟩), ("2", .file ⟨"2", "N", []⟩)] []))] []⟩ ∧
    ((⟨.mk "" [("folder", .folder (.mk "folder"
        [("b.txt", .file ⟨"b.txt", "B", []⟩), ("2", .file ⟨"2", "N", []⟩)] []))] []⟩ :
      VirtualFileSystem).listItems "folder").map (List.map VirtualItem.name) =
      .ok ["2", "b.txt"] ∧
    (["2", "b.txt"] : List String) ≠ ["b.txt", "2"] :=
  ⟨by rfl, by rfl, by decide⟩

/-- C8 (amended): `listItems` returns a folder's children in ECMAScript
own-property-key order — canonical array-index names first in ascending
numeric order, then the remaining names, stably, in insertion order — so a
successful `createFile` under a folder with a name that is not a canonical
array index appends the new file at the end of that folder's listing; in
particular creating `folder/file1.txt` then `folder/file2.txt` lists them in
exactly that creation order. -/
theorem c8_listing_order (v : VirtualFileSystem) (p c q : String) (md : MetaData)
    (v2 : VirtualFileSystem) (l : List VirtualItem) (name : String)
    (h : v.createFile p c md = .ok v2)
    (hname : (normalizePath p).getLast? = some name)
    (hidx : isArrayIndexName name = false)
    (hq : normalizePath q = parentSegs p)
    (hl : v.listItems q = .ok l) :
    v2.listItems q = .ok (l ++ [.file ⟨name, c, md⟩]) := by
  obtain ⟨parentFolder, name', hp, hfresh, hv2⟩ := createFile_ok_inv h
  obtain ⟨pn, pitems, pmd⟩ := parentFolder
  obtain ⟨hn, hw⟩ := getParentFolderAndName_ok_inv hp
  rw [hname] at hn
  injection hn with hnn
  subst hnn
  have hwq := walkFolder_ok_orig (joinSlash (parentSegs p)) q (parentSegs p) v.root
    (.mk pn pitems pmd) hw
  unfold VirtualFileSystem.listItems VirtualFileSystem.getFolder at hl ⊢
  rw [hq] at hl ⊢
  rw [hwq] at hl
  simp only [Except.map, Except.ok.injEq, VirtualFolder.items] at hl
  rw [hv2]
  rw [walkFolder_modifyAt _ (joinSlash (parentSegs p)) q (parentSegs p) v.root
    (.mk pn pitems pmd) hw]
  simp only [Except.map, Except.ok.injEq, VirtualFolder.items]
  rw [objectValues_append_nonidx name _ pitems hidx, hl]

/-- Witness for C8 (amended) at the spec's concrete inputs: with
`folder/file1.txt` already present, creating `folder/file2.txt` (not an
array-index name) lists the two files in creation order. -/
theorem c8_listing_order_witness :
    (VirtualFileSystem.fromJSON (.mk ""
        [("folder", .folder (.mk "folder"
          [("file1.txt", .file ⟨"file1.txt", "Content 1", []⟩)] []))] [])).createFile
      "folder/file2.txt" "Content 2" [] =
      .ok ⟨.mk ""
        [("folder", .folder (.mk "folder"
          [("file1.txt", .file ⟨"file1.txt", "Content 1", []⟩),
           ("file2.txt", .file ⟨"file2.txt", "Content 2", []⟩)] []))] []⟩ ∧
    (⟨.mk ""
        [("folder", .folder (.mk "folder"
          [("file1.txt", .file ⟨"file1.txt", "Content 1", []⟩),
           ("file2.txt", .file ⟨"file2.txt", "Content 2", []⟩)] []))] [] ⟩ :
      VirtualFileSystem).listItems "folder" =
      .ok [.file ⟨"file1.txt", "Content 1", []⟩, .file ⟨"file2.txt", "Content 2", []⟩] :=
  ⟨by rfl,
   c8_listing_order
     (VirtualFileSystem.fromJSON (.mk ""
        [("folder", .folder (.mk "folder"
          [("file1.txt", .file ⟨"file1.txt", "Content 1", []⟩)] []))] []))
     "folder/file2.txt" "Content 2" "folder" []
     ⟨.mk ""
        [("folder", .folder (.mk "folder"
          [("file1.txt", .file ⟨"file1.txt", "Content 1", []⟩),
           ("file2.txt", .file ⟨"file2.txt", "Content 2", []⟩)] []))] []⟩
     [.file ⟨"file1.txt", "Content 1", []⟩] "file2.txt"
     (by rfl) (by rfl) (by rfl) (by rfl) (by rfl)⟩

/-- C10: for an existing file, `createOrUpdateFile` called with the metadata
argument omitted still succeeds but wipes the file's metadata to the empty
record — the defaulted empty record is forwarded to `updateFile` and replaces
the old metadata wholesale — whereas a direct `updateFile` with the metadata
argument omitted preserves the old metadata. -/
theorem c10_createOrUpdate_metadata_wipe (v : VirtualFileSystem) (p c : String)
    (parentFolder : VirtualFolder) (name : String) (f : VirtualFile)
    (hp : v.getParentFolderAndName p = .ok (parentFolder, name))
    (hl : itemsLookup name parentFolder.items = some (.file f)) :
    (∃ v2, v.createOrUpdateFile p c = .ok v2 ∧
      v2.getItem p = .ok (some (.item (.file ⟨f.name, c, []⟩)))) ∧
    (∃ v3, v.updateFile p c = .ok v3 ∧
      v3.getItem p = .ok (some (.item (.file ⟨f.name, c, f.metaData⟩)))) := by
  obtain ⟨pn, pitems, pmd⟩ := parentFolder
  simp only [VirtualFolder.items] at hl
  have hg : itemsGet name pitems = some (.item (.file f)) :=
    itemsGet_of_lookup name pitems (.file f) hl
  constructor
  · refine ⟨⟨modifyAt (setFirst name (.file ⟨f.name, c, []⟩)) (parentSegs p) v.root⟩, ?_, ?_⟩
    · simp [VirtualFileSystem.createOrUpdateFile, VirtualFileSystem.updateFile, hp,
        VirtualFolder.items, hg]
    · rw [getItem_of_resolved (getParentFolderAndName_modifyAt _ hp)]
      simp only [VirtualFolder.items]
      rw [itemsGet_setFirst name _ pitems _ hg]
  · refine ⟨⟨modifyAt (setFirst name (.file ⟨f.name, c, f.metaData⟩)) (parentSegs p) v.root⟩,
      ?_, ?_⟩
    · simp [VirtualFileSystem.updateFile, hp, VirtualFolder.items, hg]
    · rw [getItem_of_resolved (getParentFolderAndName_modifyAt _ hp)]
      simp only [VirtualFolder.items]
      rw [itemsGet_setFirst name _ pitems _ hg]

/-- Witness for C10 at concrete inputs: on a file `x` with content `A` and
metadata tag 1, `createOrUpdateFile "x" "B"` (metadata omitted) succeeds with
the metadata wiped to the empty record, while `updateFile "x" "B"` (metadata
omitted) keeps tag 1. -/
theorem c10_createOrUpdate_metadata_wipe_witness :
    (∃ v2, (VirtualFileSystem.fromJSON
        (.mk "" [("x", .file ⟨"x", "A", [("tag", .num 1)]⟩)] [])).createOrUpdateFile
        "x" "B" = .ok v2 ∧
      v2.getItem "x" = .ok (some (.item (.file ⟨"x", "B", []⟩)))) ∧
    (∃ v3, (VirtualFileSystem.fromJSON
        (.mk "" [("x", .file ⟨"x", "A", [("tag", .num 1)]⟩)] [])).updateFile
        "x" "B" = .ok v3 ∧
      v3.getItem "x" = .ok (some (.item (.file ⟨"x", "B", [("tag", .num 1)]⟩)))) :=
  c10_createOrUpdate_metadata_wipe
    (VirtualFileSystem.fromJSON (.mk "" [("x", .file ⟨"x", "A", [("tag", .num 1)]⟩)] []))
    "x" "B" (.mk "" [("x", .file ⟨"x", "A", [("tag", .num 1)]⟩)] []) "x"
    ⟨"x", "A", [("tag", .num 1)]⟩ (by rfl) (by rfl)

/-- Counterexample to C3: with folder `a` present, resolving
`a/b/c/file.txt` consumes `a` and fails at `b`, so the claim requires the
error to echo the sub-path `a/b`; the code instead reports the full folder
prefix `a/b/c` (the whole path handed to the folder resolver). -/
theorem c3_counterexample :
    applyOps VirtualFileSystem.new
        [.createFolder "a" [], .createFile "a/b/c/file.txt" "x" []] =
      .error (.folderNotFound "a/b/c") ∧
    (VirtualFileSystem.fromJSON (.mk "" [("a", .folder (.mk "a" [] []))] [])).getFolder "a" =
      .ok (.mk "a" [] []) ∧
    ("a/b/c" : String) ≠ "a/b" :=
  ⟨by rfl, by rfl, by decide⟩

/-- C3 (amended): when folder resolution fails, the operation throws a
`FolderNotFound` error naming the full folder path handed to the resolver —
for `getFolder` the whole argument, and for operations that resolve parent and
name the original path minus its final segment (normalized and re-joined with
slashes) — not merely the prefix consumed up to the first missing folder
(the walk does stop at the first missing folder, but echoes the whole folder
path). -/
theorem c3_folder_error_full_path (v : VirtualFileSystem) (p : String) (e : VfsError) :
    (v.getFolder p = .error e → e = .folderNotFound p) ∧
    (v.getParentFolderAndName p = .error e →
      e = .invalidPath p ∨ e = .folderNotFound (joinSlash (parentSegs p))) := by
  constructor
  · intro h
    exact walkFolder_error p (normalizePath p) v.root e h
  · intro h
    unfold VirtualFileSystem.getParentFolderAndName at h
    split at h
    · simp only [Except.error.injEq] at h
      exact Or.inl h.symm
    next name hn =>
      split at h
      next e2 hw =>
        simp only [Except.error.injEq] at h
        exact Or.inr (h ▸ walkFolder_error _ _ _ _ hw)
      · exact absurd h (by simp)

/-- Witness for C3 (amended) at a concrete input: with folder `a` present,
`getFolder "a/b/c"` fails, and the theorem identifies the error as
`FolderNotFound "a/b/c"` — the full argument. -/
theorem c3_folder_error_full_path_witness :
    (VirtualFileSystem.fromJSON (.mk "" [("a", .folder (.mk "a" [] []))] [])).getFolder
        "a/b/c" = .error (.folderNotFound "a/b/c") ∧
    VfsError.folderNotFound "a/b/c" = .folderNotFound "a/b/c" :=
  ⟨by rfl,
   (c3_folder_error_full_path
      (VirtualFileSystem.fromJSON (.mk "" [("a", .folder (.mk "a" [] []))] []))
      "a/b/c" (.folderNotFound "a/b/c")).1 (by rfl)⟩
